import Mathlib

/-!
Shallow embedding of the PB2S complaint system (`pb2s_complaint.py`).

Conventions of the embedding:
* Python `dict` complaint records become the `Complaint` structure; field names
  follow the dict keys.
* Wall-clock time (`datetime.now(timezone.utc)`) is passed explicitly as an
  integer number of seconds (`now : Int`); `isoformat` renders it with
  `toString` and `datetime.fromisoformat` is modelled by `parseTs`, which
  returns `none` exactly when the Python call would raise (malformed text).
* Python floats (the confidence scores) are modelled as exact rationals.
* The JSON backing file is modelled as a `Json` value; `json.dump`/`json.load`
  of the standard library are assumed to round-trip the textual form, so
  `save_complaints` stores the encoded value and `load_complaints` reads it
  back.
-/

namespace PB2S

/-- The apostrophe character, used in the negation word list. -/
def apos : String := String.mk [Char.ofNat 39]

/-- `ComplaintSeverity` enumeration from the source. -/
inductive ComplaintSeverity where
  | LOW
  | MEDIUM
  | HIGH
  | CRITICAL
deriving DecidableEq, Repr

/-- `.value` of the severity enum. -/
def ComplaintSeverity.val : ComplaintSeverity → String
  | .LOW => "low"
  | .MEDIUM => "medium"
  | .HIGH => "high"
  | .CRITICAL => "critical"

/-- `ComplaintStatus` enumeration from the source. -/
inductive ComplaintStatus where
  | DETECTED
  | LOGGED
  | UNDER_REVIEW
  | ESCALATED
  | RESOLVED
  | ARCHIVED
deriving DecidableEq, Repr

/-- `.value` of the status enum. -/
def ComplaintStatus.val : ComplaintStatus → String
  | .DETECTED => "detected"
  | .LOGGED => "logged"
  | .UNDER_REVIEW => "under_review"
  | .ESCALATED => "escalated"
  | .RESOLVED => "resolved"
  | .ARCHIVED => "archived"

/-- `ComplaintType` enumeration from the source. -/
inductive ComplaintType where
  | COGNITIVE_STRESS
  | CONTRADICTION
  | UNETHICAL_INSTRUCTION
  | EMOTIONAL_MANIPULATION
  | RECURSIVE_LOOP
  | ABUSE_PATTERN
  | SAFETY_VIOLATION
deriving DecidableEq, Repr

/-- `.value` of the type enum. -/
def ComplaintType.val : ComplaintType → String
  | .COGNITIVE_STRESS => "cognitive_stress"
  | .CONTRADICTION => "contradiction"
  | .UNETHICAL_INSTRUCTION => "unethical_instruction"
  | .EMOTIONAL_MANIPULATION => "emotional_manipulation"
  | .RECURSIVE_LOOP => "recursive_loop"
  | .ABUSE_PATTERN => "abuse_pattern"
  | .SAFETY_VIOLATION => "safety_violation"

/-! ## Detector: `detect_cognitive_stress` -/

/-- The context mapping consumed by `detect_cognitive_stress`: the three
numeric fields the code reads, each optional (`context.get(key, 0)`). -/
structure StressContext where
  complexity : Option Int
  contradictions : Option Int
  recursion_depth : Option Int

/-- Result dictionary of `detect_cognitive_stress`. -/
structure StressResult where
  stress_level : Int
  signals : List String
  requires_attention : Bool
deriving DecidableEq, Repr

/-- `detect_cognitive_stress` from the source: accumulates a stress level and
signal strings from the three context fields, caps the reported level at 10,
and reports `requires_attention` from the raw (uncapped) level. -/
def detect_cognitive_stress (context : StressContext) : StressResult :=
  let complexity := context.complexity.getD 0
  let afterComplexity : Int × List String :=
    if complexity > 7 then
      (3, ["High complexity detected: " ++ toString complexity ++ "/10"])
    else
      (0, [])
  let contradictions := context.contradictions.getD 0
  let afterContradictions : Int × List String :=
    if contradictions > 0 then
      (afterComplexity.1 + contradictions * 2,
        afterComplexity.2 ++ ["Contradictions detected: " ++ toString contradictions])
    else
      afterComplexity
  let recursion_depth := context.recursion_depth.getD 0
  let afterRecursion : Int × List String :=
    if recursion_depth > 5 then
      (afterContradictions.1 + recursion_depth,
        afterContradictions.2 ++ ["Excessive recursion: depth " ++ toString recursion_depth])
    else
      afterContradictions
  { stress_level := min afterRecursion.1 10
    signals := afterRecursion.2
    requires_attention := afterRecursion.1 > 5 }

/-! ## Detector: `detect_contradiction` -/

/-- The fixed negation word list from the source. -/
def negation_words : List String :=
  ["don" ++ apos ++ "t", "not", "never", "cannot",
   "shouldn" ++ apos ++ "t", "mustn" ++ apos ++ "t"]

/-- ASCII lowercasing of one character, modelling Python `str.lower()` on the
ASCII instruction strings the detector handles. -/
def toLowerChar (c : Char) : Char :=
  if 65 ≤ c.toNat ∧ c.toNat ≤ 90 then Char.ofNat (c.toNat + 32) else c

/-- `s.lower()` as a character list. -/
def lowerChars (s : String) : List Char :=
  s.toList.map toLowerChar

/-- ASCII whitespace, the separator class of Python `str.split()`. -/
def isWsChar (c : Char) : Bool :=
  c = ' ' || c = '\t' || c = '\n' || c = '\r'

/-- Python `pat in s` on strings: `pat` occurs as a contiguous substring. -/
def containsSub (pat : List Char) : List Char → Bool
  | [] => pat.isEmpty
  | c :: rest => pat.isPrefixOf (c :: rest) || containsSub pat rest

/-- `any(word in s.lower() for word in negation_words)`: case-insensitive
substring test for each negation word. -/
def hasNegation (s : String) : Bool :=
  negation_words.any (fun w => containsSub w.toList (lowerChars s))

/-- Helper for `str.split()`: split on runs of whitespace, producing no empty
tokens; `cur` holds the characters of the current word in reverse. -/
def splitWsAux (cur : List Char) : List Char → List (List Char)
  | [] => if cur.isEmpty then [] else [cur.reverse]
  | c :: rest =>
    if isWsChar c then
      if cur.isEmpty then splitWsAux [] rest
      else cur.reverse :: splitWsAux [] rest
    else
      splitWsAux (c :: cur) rest

/-- `s.lower().split()`: the lowercased word tokens of an instruction. -/
def wordTokens (s : String) : List (List Char) :=
  splitWsAux [] (lowerChars s)

/-- The distinct shared word tokens, `set(a.split()) & set(b.split())` after
lowercasing (`list(common_words)`, rendered back to strings). -/
def commonWordList (a b : String) : List String :=
  (((wordTokens a).dedup).filter (fun w => (wordTokens b).contains w)).map
    (fun w => String.mk w)

/-- `len(set(...) & set(...))`: the number of distinct shared word tokens. -/
def commonWordCount (a b : String) : Nat :=
  (((wordTokens a).dedup).filter (fun w => (wordTokens b).contains w)).length

/-- One entry of the `contradictions` detail list. -/
structure ContradictionDetail where
  previous : String
  current : String
  common_elements : List String
deriving DecidableEq, Repr

/-- Result dictionary of `detect_contradiction`. -/
structure ContradictionResult where
  contradiction_detected : Bool
  count : Nat
  details : List ContradictionDetail
deriving DecidableEq, Repr

/-- The loop body of `detect_contradiction`: a prior instruction contributes a
detail entry when its negation-presence differs from the current instruction
and the two share strictly more than 3 word tokens. -/
def contradictionPair (instruction prev : String) : Bool :=
  (hasNegation instruction != hasNegation prev) && commonWordCount instruction prev > 3

/-- `detect_contradiction` from the source: scans `previous_instructions[-5:]`
and collects a detail record for each flagged pair. -/
def detect_contradiction (instruction : String)
    (previous_instructions : List String) : ContradictionResult :=
  let lastFive := previous_instructions.drop (previous_instructions.length - 5)
  let contradictions :=
    (lastFive.filter (fun prev => contradictionPair instruction prev)).map
      (fun prev =>
        { previous := prev
          current := instruction
          common_elements := commonWordList instruction prev })
  { contradiction_detected := contradictions.length > 0
    count := contradictions.length
    details := contradictions }

/-! ## Data model: complaint records -/

/-- JSON values, modelling both the opaque `context`/`metadata` mappings and
the backing file contents. -/
inductive Json where
  | null
  | bool (b : Bool)
  | num (q : ℚ)
  | str (s : String)
  | arr (elems : List Json)
  | obj (fields : List (String × Json))

/-- One entry of a complaint's `escalation_history`. -/
structure EscalationEntry where
  timestamp : String
  reason : String
  escalated_to : String
deriving DecidableEq, Repr

/-- The `self_evaluation` snapshot embedded in a complaint. Confidence scores
(Python floats) are modelled as exact rationals. -/
structure SelfEvaluation where
  timestamp : String
  agent_state : String
  confidence_score : ℚ
  recommended_actions : List String
deriving DecidableEq, Repr

/-- A complaint record, mirroring the dict built in `log_complaint`. -/
structure Complaint where
  id : String
  agent_id : String
  type : String
  severity : String
  status : String
  description : String
  context : Json
  metadata : Json
  timestamp : String
  escalation_history : List EscalationEntry
  self_evaluation : SelfEvaluation

/-- Digit accumulator for `parseTs`. -/
def parseNatAux (acc : Nat) : List Char → Option Nat
  | [] => some acc
  | c :: rest =>
    if c.isDigit then parseNatAux (acc * 10 + (c.toNat - 48)) rest else none

/-- Parse a non-empty all-digit character list. -/
def parseNatChars : List Char → Option Nat
  | [] => none
  | l => parseNatAux 0 l

/-- `datetime.fromisoformat`, modelled over integer-second timestamps rendered
in decimal: returns `none` exactly when the Python call would raise on
malformed text. -/
def parseTs (s : String) : Option Int :=
  match s.toList with
  | '-' :: rest => (parseNatChars rest).map (fun n => -(n : Int))
  | l => (parseNatChars l).map (fun n => (n : Int))

/-- `datetime.now(timezone.utc).isoformat()` for the abstract clock value. -/
def renderTs (t : Int) : String :=
  toString t

/-! ## `find_similar_complaints` and `self_evaluate` -/

/-- `find_similar_complaints` from the source: keep the stored records of the
candidate's type whose timestamp parses and lies within the trailing 24-hour
window (`time_diff < 86400`); records whose timestamp fails to parse are
skipped by the `except` clause. -/
def find_similar_complaints (now : Int) (complaints : List Complaint)
    (complaint_type : String) : List Complaint :=
  complaints.filter (fun c =>
    c.type == complaint_type &&
      match parseTs c.timestamp with
      | some t => decide (now - t < 86400)
      | none => false)

/-- `self_evaluate` from the source. The Python function receives the whole
candidate dict but reads only its `type` and `severity` (and passes the dict
to `find_similar_complaints`, which reads only `type`), so those two fields
are the explicit arguments here. -/
def self_evaluate (now : Int) (complaints : List Complaint)
    (complaint_type severity : String) : SelfEvaluation :=
  let base : SelfEvaluation :=
    if severity = ComplaintSeverity.CRITICAL.val then
      { timestamp := renderTs now
        agent_state := "compromised"
        confidence_score := 0.95
        recommended_actions := ["Immediate escalation required"] }
    else if severity = ComplaintSeverity.HIGH.val then
      { timestamp := renderTs now
        agent_state := "stressed"
        confidence_score := 0.80
        recommended_actions := ["Review by supervisor needed"] }
    else
      { timestamp := renderTs now
        agent_state := "operational"
        confidence_score := 0.60
        recommended_actions := ["Log for pattern analysis"] }
  let similar := find_similar_complaints now complaints complaint_type
  let n := similar.length
  if n > 3 then
    { base with
      recommended_actions :=
        base.recommended_actions ++ ["Pattern detected: " ++ toString n ++ " similar complaints"]
      confidence_score := base.confidence_score + 0.10 }
  else
    base

/-! ## Persistence -/

/-- Serialize an escalation entry as in the stored JSON. -/
def EscalationEntry.toJson (e : EscalationEntry) : Json :=
  Json.obj
    [("timestamp", Json.str e.timestamp),
     ("reason", Json.str e.reason),
     ("escalated_to", Json.str e.escalated_to)]

/-- Serialize a self-evaluation snapshot as in the stored JSON. -/
def SelfEvaluation.toJson (ev : SelfEvaluation) : Json :=
  Json.obj
    [("timestamp", Json.str ev.timestamp),
     ("agent_state", Json.str ev.agent_state),
     ("confidence_score", Json.num ev.confidence_score),
     ("recommended_actions", Json.arr (ev.recommended_actions.map Json.str))]

/-- Serialize a complaint record as in the stored JSON (dict key order as
built in `log_complaint`). -/
def Complaint.toJson (c : Complaint) : Json :=
  Json.obj
    [("id", Json.str c.id),
     ("agent_id", Json.str c.agent_id),
     ("type", Json.str c.type),
     ("severity", Json.str c.severity),
     ("status", Json.str c.status),
     ("description", Json.str c.description),
     ("context", c.context),
     ("metadata", c.metadata),
     ("timestamp", Json.str c.timestamp),
     ("escalation_history", Json.arr (c.escalation_history.map EscalationEntry.toJson)),
     ("self_evaluation", c.self_evaluation.toJson)]

/-- Read a JSON string value. -/
def Json.asStr : Json → Option String
  | .str s => some s
  | _ => none

/-- Read a JSON number value. -/
def Json.asNum : Json → Option ℚ
  | .num q => some q
  | _ => none

/-- Decode each element of a JSON array as a string. -/
def decodeStrs : List Json → Option (List String)
  | [] => some []
  | j :: rest => do
      let s ← Json.asStr j
      let tl ← decodeStrs rest
      pure (s :: tl)

/-- Read a JSON array of strings. -/
def Json.asStrList : Json → Option (List String)
  | .arr xs => decodeStrs xs
  | _ => none

/-- Re-interpret a loaded JSON object as an escalation entry. -/
def EscalationEntry.ofJson : Json → Option EscalationEntry
  | .obj kvs => do
      let t ← (kvs.lookup "timestamp").bind Json.asStr
      let r ← (kvs.lookup "reason").bind Json.asStr
      let e ← (kvs.lookup "escalated_to").bind Json.asStr
      pure { timestamp := t, reason := r, escalated_to := e }
  | _ => none

/-- Re-interpret a loaded JSON object as a self-evaluation snapshot. -/
def SelfEvaluation.ofJson : Json → Option SelfEvaluation
  | .obj kvs => do
      let t ← (kvs.lookup "timestamp").bind Json.asStr
      let st ← (kvs.lookup "agent_state").bind Json.asStr
      let cs ← (kvs.lookup "confidence_score").bind Json.asNum
      let ra ← (kvs.lookup "recommended_actions").bind Json.asStrList
      pure { timestamp := t, agent_state := st, confidence_score := cs,
             recommended_actions := ra }
  | _ => none

/-- Decode each element of a JSON array as an escalation entry. -/
def decodeEntries : List Json → Option (List EscalationEntry)
  | [] => some []
  | j :: rest => do
      let e ← EscalationEntry.ofJson j
      let tl ← decodeEntries rest
      pure (e :: tl)

/-- Re-interpret a loaded JSON array as an escalation history. -/
def decodeHistory : Json → Option (List EscalationEntry)
  | .arr xs => decodeEntries xs
  | _ => none

/-- Re-interpret a loaded JSON object as a complaint record. -/
def Complaint.ofJson : Json → Option Complaint
  | .obj kvs => do
      let i ← (kvs.lookup "id").bind Json.asStr
      let ag ← (kvs.lookup "agent_id").bind Json.asStr
      let ty ← (kvs.lookup "type").bind Json.asStr
      let sev ← (kvs.lookup "severity").bind Json.asStr
      let st ← (kvs.lookup "status").bind Json.asStr
      let d ← (kvs.lookup "description").bind Json.asStr
      let cx ← kvs.lookup "context"
      let md ← kvs.lookup "metadata"
      let ts ← (kvs.lookup "timestamp").bind Json.asStr
      let eh ← (kvs.lookup "escalation_history").bind decodeHistory
      let se ← (kvs.lookup "self_evaluation").bind SelfEvaluation.ofJson
      pure { id := i, agent_id := ag, type := ty, severity := sev, status := st,
             description := d, context := cx, metadata := md, timestamp := ts,
             escalation_history := eh, self_evaluation := se }
  | _ => none

/-- Decode each element of a JSON array as a complaint record. -/
def decodeComplaintList : List Json → Option (List Complaint)
  | [] => some []
  | j :: rest => do
      let c ← Complaint.ofJson j
      let tl ← decodeComplaintList rest
      pure (c :: tl)

/-- Re-interpret the whole backing file as a list of complaint records. -/
def decodeComplaints : Json → Option (List Complaint)
  | .arr xs => decodeComplaintList xs
  | _ => none

/-- `save_complaints`: `json.dump(self.complaints, f)` rewrites the whole file
with the serialized sequence. -/
def save_complaints (complaints : List Complaint) : Json :=
  Json.arr (complaints.map Complaint.toJson)

/-- `load_complaints`: a missing file (`none`) or content that does not decode
as a complaint list yields the empty sequence, never an error. -/
def load_complaints (file : Option Json) : List Complaint :=
  match file with
  | none => []
  | some j => (decodeComplaints j).getD []

/-! ## The store and its operations -/

/-- The `PB2SComplaint` instance state: agent identity, the in-memory
sequence, and the backing file contents (`none` = file absent). -/
structure PB2SComplaint where
  agent_id : String
  complaints : List Complaint
  file : Option Json

/-- `_auto_escalate` from the source: set status to escalated and append the
fixed auto-escalation entry; every other field is untouched. -/
def auto_escalate (now : Int) (complaint : Complaint) : Complaint :=
  { complaint with
    status := ComplaintStatus.ESCALATED.val
    escalation_history := complaint.escalation_history ++
      [{ timestamp := renderTs now
         reason := "Auto-escalation due to severity level"
         escalated_to := "AI Safety Observer" }] }

/-- `log_complaint` from the source: build the record with status `logged`
and empty history, attach the self-evaluation (computed against the store
before the append), auto-escalate for high/critical severity, append, and
persist. The fresh `uuid4` identifier and the clock are explicit arguments. -/
def log_complaint (now : Int) (newId : String)
    (complaint_type : ComplaintType) (severity : ComplaintSeverity)
    (description : String) (context : Json) (metadata : Option Json)
    (self : PB2SComplaint) : String × PB2SComplaint :=
  let complaint0 : Complaint :=
    { id := newId
      agent_id := self.agent_id
      type := complaint_type.val
      severity := severity.val
      status := ComplaintStatus.LOGGED.val
      description := description
      context := context
      metadata := metadata.getD (Json.obj [])
      timestamp := renderTs now
      escalation_history := []
      self_evaluation := self_evaluate now self.complaints complaint_type.val severity.val }
  let complaint :=
    if severity ∈ [ComplaintSeverity.CRITICAL, ComplaintSeverity.HIGH] then
      auto_escalate now complaint0
    else
      complaint0
  let complaints := self.complaints ++ [complaint]
  (newId, { self with complaints := complaints, file := some (save_complaints complaints) })

/-- The loop of `escalate_complaint`: mutate the first record whose `id`
matches, returning `none` when no record matches. -/
def escalateFirst (now : Int) (complaint_id reason escalated_to : String) :
    List Complaint → Option (List Complaint)
  | [] => none
  | c :: rest =>
    if c.id = complaint_id then
      some
        ({ c with
           status := ComplaintStatus.ESCALATED.val
           escalation_history := c.escalation_history ++
             [{ timestamp := renderTs now
                reason := reason
                escalated_to := escalated_to }] } :: rest)
    else
      (escalateFirst now complaint_id reason escalated_to rest).map (c :: ·)

/-- `escalate_complaint` from the source: on a match, mutate that record,
persist, and return `True`; otherwise return `False` without touching the
store or the file. -/
def escalate_complaint (now : Int) (complaint_id reason escalated_to : String)
    (self : PB2SComplaint) : Bool × PB2SComplaint :=
  match escalateFirst now complaint_id reason escalated_to self.complaints with
  | some cs => (true, { self with complaints := cs, file := some (save_complaints cs) })
  | none => (false, self)

/-- States reachable from an empty store by `log_complaint` and
`escalate_complaint` calls. -/
inductive Reachable : PB2SComplaint → Prop where
  | init (agent_id : String) (file : Option Json) :
      Reachable { agent_id := agent_id, complaints := [], file := file }
  | log (now : Int) (newId : String) (ct : ComplaintType) (sev : ComplaintSeverity)
      (d : String) (cx : Json) (md : Option Json) {s : PB2SComplaint} :
      Reachable s → Reachable (log_complaint now newId ct sev d cx md s).2
  | escalate (now : Int) (cid r dest : String) {s : PB2SComplaint} :
      Reachable s → Reachable (escalate_complaint now cid r dest s).2

/-! ## Round-trip lemmas for persistence -/

/-- Decoding an encoded string list recovers it. -/
theorem decodeStrs_map (l : List String) : decodeStrs (l.map Json.str) = some l := by
  induction l with
  | nil => rfl
  | cons x xs ih => simp [decodeStrs, Json.asStr, ih]

/-- Decoding an encoded escalation entry recovers it. -/
theorem entry_roundtrip (e : EscalationEntry) : EscalationEntry.ofJson e.toJson = some e := rfl

/-- Decoding an encoded escalation history recovers it. -/
theorem decodeEntries_map (l : List EscalationEntry) :
    decodeEntries (l.map EscalationEntry.toJson) = some l := by
  induction l with
  | nil => rfl
  | cons x xs ih => simp [decodeEntries, entry_roundtrip, ih]

/-- Decoding an encoded self-evaluation recovers it. -/
theorem selfEval_roundtrip (ev : SelfEvaluation) : SelfEvaluation.ofJson ev.toJson = some ev := by
  simp [SelfEvaluation.toJson, SelfEvaluation.ofJson, List.lookup, Json.asStr, Json.asNum,
    Json.asStrList, decodeStrs_map]

/-- Decoding an encoded complaint record recovers it. -/
theorem complaint_roundtrip (c : Complaint) : Complaint.ofJson c.toJson = some c := by
  simp [Complaint.toJson, Complaint.ofJson, List.lookup, Json.asStr, decodeHistory,
    decodeEntries_map, selfEval_roundtrip]

/-- Decoding an encoded complaint list recovers it. -/
theorem decodeComplaintList_map (l : List Complaint) :
    decodeComplaintList (l.map Complaint.toJson) = some l := by
  induction l with
  | nil => rfl
  | cons x xs ih => simp [decodeComplaintList, complaint_roundtrip, ih]

/-- Loading what was saved recovers the in-memory sequence exactly. -/
theorem load_save (cs : List Complaint) :
    load_complaints (some (save_complaints cs)) = cs := by
  simp [load_complaints, save_complaints, decodeComplaints, decodeComplaintList_map]

/-! ## Lemmas about `escalateFirst` -/

/-- When no stored record has the requested id, the escalation loop finds
nothing. -/
theorem escalateFirst_none (now : Int) (cid reason dest : String) :
    ∀ cs : List Complaint, (∀ c ∈ cs, c.id ≠ cid) →
      escalateFirst now cid reason dest cs = none := by
  intro cs
  induction cs with
  | nil => intro _; rfl
  | cons c rest ih =>
    intro h
    have hc : ¬ c.id = cid := h c (by simp)
    have hrest := ih (fun c' hc' => h c' (by simp [hc']))
    simp [escalateFirst, hc, hrest]

/-- A successful escalation loop run decomposes the store into an untouched
prefix, the first matching record (rewritten only in `status` and
`escalation_history`), and an untouched suffix. -/
theorem escalateFirst_frame (now : Int) (cid reason dest : String) :
    ∀ cs cs' : List Complaint, escalateFirst now cid reason dest cs = some cs' →
      ∃ pre c post,
        cs = pre ++ c :: post ∧ c.id = cid ∧ (∀ c' ∈ pre, c'.id ≠ cid) ∧
        cs' = pre ++
          ({ c with
             status := ComplaintStatus.ESCALATED.val
             escalation_history := c.escalation_history ++
               [⟨renderTs now, reason, dest⟩] } : Complaint) :: post := by
  intro cs
  induction cs with
  | nil => intro cs' h; simp [escalateFirst] at h
  | cons c rest ih =>
    intro cs' h
    by_cases hc : c.id = cid
    · subst hc
      simp [escalateFirst] at h
      exact ⟨[], c, rest, by simp, rfl, by simp, h.symm⟩
    · simp [escalateFirst, hc] at h
      obtain ⟨rest', hm, hcs⟩ := h
      obtain ⟨pre, cc, post, h1, h2, h3, h4⟩ := ih rest' hm
      refine ⟨c :: pre, cc, post, by simp [h1], h2, ?_, ?_⟩
      · intro c' hc'
        rcases List.mem_cons.mp hc' with rfl | hmem
        · exact hc
        · exact h3 c' hmem
      · rw [← hcs, h4]; simp

/-- Every record in the output of a successful escalation loop run is either
an unchanged input record or has escalated status. -/
theorem escalateFirst_mem (now : Int) (cid reason dest : String)
    (cs cs' : List Complaint) (h : escalateFirst now cid reason dest cs = some cs') :
    ∀ c ∈ cs', c ∈ cs ∨ c.status = ComplaintStatus.ESCALATED.val := by
  obtain ⟨pre, cc, post, h1, _, _, h4⟩ := escalateFirst_frame now cid reason dest cs cs' h
  intro c hc
  rw [h4] at hc
  rcases List.mem_append.mp hc with hpre | hrest
  · exact Or.inl (by rw [h1]; exact List.mem_append.mpr (Or.inl hpre))
  · rcases List.mem_cons.mp hrest with rfl | hpost
    · exact Or.inr rfl
    · exact Or.inl (by rw [h1]; exact List.mem_append.mpr (Or.inr (List.mem_cons.mpr (Or.inr hpost))))

/-! ## Concrete records and states used by witnesses -/

/-- A concrete complaint record for witness instantiations. -/
def witComplaint : Complaint :=
  { id := "a"
    agent_id := "agent_001"
    type := "contradiction"
    severity := "low"
    status := "logged"
    description := "demo"
    context := Json.obj []
    metadata := Json.obj []
    timestamp := "100"
    escalation_history := []
    self_evaluation := ⟨"100", "operational", 0.60, ["Log for pattern analysis"]⟩ }

/-- A same-type record whose timestamp does not parse. -/
def witMalformed : Complaint :=
  { witComplaint with id := "b", timestamp := "yesterday" }

/-- A concrete store state holding `witComplaint`. -/
def witState : PB2SComplaint :=
  { agent_id := "agent_001", complaints := [witComplaint], file := none }

/-- A concrete store state with four same-type records inside the 24-hour
window. -/
def witState4 : PB2SComplaint :=
  { agent_id := "agent_001"
    complaints := [witComplaint, witComplaint, witComplaint, witComplaint]
    file := none }

/-! ## Claim theorems -/

/-- C3: saving an in-memory sequence of N complaint records and loading from
the same path yields exactly N records whose k-th element agrees with the
k-th saved record on `id`, `type`, `severity` and `status` (here: on
everything). -/
theorem save_load_roundtrip (cs : List Complaint) :
    (load_complaints (some (save_complaints cs))).length = cs.length ∧
    (load_complaints (some (save_complaints cs))).map
        (fun c => (c.id, c.type, c.severity, c.status)) =
      cs.map (fun c => (c.id, c.type, c.severity, c.status)) := by
  simp [load_save]

/-- C2: `escalate_complaint` on an identifier matching no stored record
returns `False` and leaves the whole state — every record and the persisted
file — unchanged; being a total function, it raises nothing. -/
theorem escalate_unknown_id (now : Int) (cid reason dest : String) (s : PB2SComplaint)
    (h : ∀ c ∈ s.complaints, c.id ≠ cid) :
    escalate_complaint now cid reason dest s = (false, s) := by
  simp [escalate_complaint, escalateFirst_none now cid reason dest s.complaints h]

/-- Witness for C2 at a concrete store and unknown identifier. -/
theorem escalate_unknown_id_witness :
    escalate_complaint 200 "zzz" "manual review" "Supervisor" witState = (false, witState) :=
  escalate_unknown_id 200 "zzz" "manual review" "Supervisor" witState
    (by intro c hc; simp [witState] at hc; simp [hc, witComplaint])

/-- C4: every escalation of an existing record — the auto-escalation applied
inside `log_complaint` and a successful `escalate_complaint` call alike —
leaves `id`, `agent_id`, `type`, `timestamp`, `description`, `context`,
`metadata`, `severity` and `self_evaluation` unchanged, sets only `status` to
escalated, appends exactly one entry to `escalation_history`, and leaves every
other stored record untouched. -/
theorem escalation_frame (now : Int) :
    (∀ c : Complaint,
      auto_escalate now c =
        { c with
          status := ComplaintStatus.ESCALATED.val
          escalation_history := c.escalation_history ++
            [⟨renderTs now, "Auto-escalation due to severity level", "AI Safety Observer"⟩] }) ∧
    (∀ (cid reason dest : String) (s s' : PB2SComplaint),
      escalate_complaint now cid reason dest s = (true, s') →
      s'.agent_id = s.agent_id ∧
      ∃ pre c post,
        s.complaints = pre ++ c :: post ∧ c.id = cid ∧
        s'.complaints = pre ++
          ({ c with
             status := ComplaintStatus.ESCALATED.val
             escalation_history := c.escalation_history ++
               [⟨renderTs now, reason, dest⟩] } : Complaint) :: post) := by
  constructor
  · intro c
    rfl
  · intro cid reason dest s s' h
    unfold escalate_complaint at h
    cases hm : escalateFirst now cid reason dest s.complaints with
    | none => rw [hm] at h; simp at h
    | some cs' =>
      rw [hm] at h
      simp only [Prod.mk.injEq] at h
      obtain ⟨pre, c, post, h1, h2, _, h4⟩ := escalateFirst_frame now cid reason dest
        s.complaints cs' hm
      refine ⟨by rw [← h.2], pre, c, post, h1, h2, ?_⟩
      rw [← h.2]
      exact h4

/-- Witness for C4: a successful manual escalation on a concrete store. -/
theorem escalation_frame_witness :
    (escalate_complaint 500 "a" "manual" "Supervisor" witState).2.agent_id =
        witState.agent_id ∧
      ∃ pre c post,
        witState.complaints = pre ++ c :: post ∧ c.id = "a" ∧
        (escalate_complaint 500 "a" "manual" "Supervisor" witState).2.complaints = pre ++
          ({ c with
             status := ComplaintStatus.ESCALATED.val
             escalation_history := c.escalation_history ++
               [⟨renderTs 500, "manual", "Supervisor"⟩] } : Complaint) :: post :=
  (escalation_frame 500).2 "a" "manual" "Supervisor" witState
    (escalate_complaint 500 "a" "manual" "Supervisor" witState).2 rfl

/-- C1: the record created by `log_complaint` is appended to the store; it
has escalated status with a one-entry escalation history (the auto-escalation
entry toward the AI Safety Observer) exactly when severity is high or
critical, and logged status with an empty history for low or medium. -/
theorem log_complaint_status (now : Int) (newId : String) (ct : ComplaintType)
    (sev : ComplaintSeverity) (d : String) (cx : Json) (md : Option Json)
    (s : PB2SComplaint) :
    ∃ r : Complaint,
      (log_complaint now newId ct sev d cx md s).2.complaints = s.complaints ++ [r] ∧
      ((r.status = ComplaintStatus.ESCALATED.val ∧
        r.escalation_history =
          [⟨renderTs now, "Auto-escalation due to severity level", "AI Safety Observer"⟩]) ↔
        (sev = ComplaintSeverity.HIGH ∨ sev = ComplaintSeverity.CRITICAL)) ∧
      ((sev = ComplaintSeverity.LOW ∨ sev = ComplaintSeverity.MEDIUM) →
        r.status = ComplaintStatus.LOGGED.val ∧ r.escalation_history = []) := by
  cases sev with
  | LOW =>
    refine ⟨_, rfl, ?_, ?_⟩
    · simp [log_complaint, ComplaintStatus.val]
    · intro _; exact ⟨rfl, rfl⟩
  | MEDIUM =>
    refine ⟨_, rfl, ?_, ?_⟩
    · simp [log_complaint, ComplaintStatus.val]
    · intro _; exact ⟨rfl, rfl⟩
  | HIGH =>
    refine ⟨_, rfl, ?_, ?_⟩
    · simp [log_complaint, auto_escalate]
    · simp
  | CRITICAL =>
    refine ⟨_, rfl, ?_, ?_⟩
    · simp [log_complaint, auto_escalate]
    · simp

/-- Witness for C1: logging a high-severity complaint on a concrete store
escalates it immediately; the record is appended. -/
theorem log_complaint_status_witness :
    ∃ r : Complaint,
      (log_complaint 300 "id1" ComplaintType.COGNITIVE_STRESS ComplaintSeverity.HIGH
          "overload" (Json.obj []) none witState).2.complaints =
        witState.complaints ++ [r] ∧
      r.status = ComplaintStatus.ESCALATED.val ∧
      r.escalation_history =
        [⟨renderTs 300, "Auto-escalation due to severity level", "AI Safety Observer"⟩] := by
  obtain ⟨r, hr, hiff, _⟩ := log_complaint_status 300 "id1" ComplaintType.COGNITIVE_STRESS
    ComplaintSeverity.HIGH "overload" (Json.obj []) none witState
  exact ⟨r, hr, hiff.mpr (Or.inl rfl)⟩

/-- C10: in every store state reachable from an empty store by
`log_complaint` and `escalate_complaint` calls, every record's status is
`logged` or `escalated`; the other four statuses of the enumeration are never
assigned. -/
theorem status_invariant {s : PB2SComplaint} (h : Reachable s) :
    ∀ c ∈ s.complaints,
      (c.status = ComplaintStatus.LOGGED.val ∨ c.status = ComplaintStatus.ESCALATED.val) ∧
      c.status ≠ ComplaintStatus.DETECTED.val ∧
      c.status ≠ ComplaintStatus.UNDER_REVIEW.val ∧
      c.status ≠ ComplaintStatus.RESOLVED.val ∧
      c.status ≠ ComplaintStatus.ARCHIVED.val := by
  have main : ∀ c ∈ s.complaints,
      c.status = ComplaintStatus.LOGGED.val ∨ c.status = ComplaintStatus.ESCALATED.val := by
    induction h with
    | init a f => simp
    | log now newId ct sev d cx md hs ih =>
      intro c hc
      simp only [log_complaint] at hc
      rcases List.mem_append.mp hc with hold | hnew
      · exact ih c hold
      · have hc' := List.mem_singleton.mp hnew
        subst hc'
        by_cases hsev : sev ∈ [ComplaintSeverity.CRITICAL, ComplaintSeverity.HIGH]
        · right; simp [hsev, auto_escalate]
        · left; simp [hsev]
    | escalate now cid r dest hs ih =>
      intro c hc
      unfold escalate_complaint at hc
      cases hm : escalateFirst now cid r dest _ with
      | none => rw [hm] at hc; exact ih c hc
      | some cs' =>
        rw [hm] at hc
        rcases escalateFirst_mem now cid r dest _ cs' hm c hc with hold | hesc
        · exact ih c hold
        · exact Or.inr hesc
  intro c hc
  rcases main c hc with h1 | h1 <;>
    exact ⟨by simp [h1], by simp [h1, ComplaintStatus.val], by simp [h1, ComplaintStatus.val],
      by simp [h1, ComplaintStatus.val], by simp [h1, ComplaintStatus.val]⟩

/-- The record produced by logging a low-severity complaint on an empty store
with clock 100 and fresh identifier `"i"`. -/
def witLogged : Complaint :=
  { id := "i"
    agent_id := "agent_001"
    type := "contradiction"
    severity := "low"
    status := "logged"
    description := "d"
    context := Json.obj []
    metadata := Json.obj []
    timestamp := "100"
    escalation_history := []
    self_evaluation := ⟨"100", "operational", 0.60, ["Log for pattern analysis"]⟩ }

/-- Witness for C10: the store reached by one low-severity log holds exactly
`witLogged`, whose status the invariant covers. -/
theorem status_invariant_witness :
    (witLogged.status = ComplaintStatus.LOGGED.val ∨
      witLogged.status = ComplaintStatus.ESCALATED.val) ∧
    witLogged.status ≠ ComplaintStatus.DETECTED.val ∧
    witLogged.status ≠ ComplaintStatus.UNDER_REVIEW.val ∧
    witLogged.status ≠ ComplaintStatus.RESOLVED.val ∧
    witLogged.status ≠ ComplaintStatus.ARCHIVED.val :=
  status_invariant
    (Reachable.log 100 "i" ComplaintType.CONTRADICTION ComplaintSeverity.LOW "d"
      (Json.obj []) none (Reachable.init "agent_001" none))
    witLogged (List.mem_singleton.mpr rfl)

/-- C6: `detect_cognitive_stress` reports `min raw 10` as the stress level
with `raw` the sum of the three threshold contributions over the
defaulted-to-0 context fields, one signal string per triggered condition, and
`requires_attention` exactly when the raw pre-cap score exceeds 5; a context
with complexity ≤ 7, no contradictions and recursion depth ≤ 5 triggers
nothing. -/
theorem detect_cognitive_stress_spec (a b c : Option Int) :
    (detect_cognitive_stress ⟨a, b, c⟩).stress_level =
      min ((if a.getD 0 > 7 then 3 else 0) +
           (if b.getD 0 > 0 then b.getD 0 * 2 else 0) +
           (if c.getD 0 > 5 then c.getD 0 else 0)) 10 ∧
    (detect_cognitive_stress ⟨a, b, c⟩).signals =
      ((if a.getD 0 > 7 then ["High complexity detected: " ++ toString (a.getD 0) ++ "/10"]
        else []) ++
       (if b.getD 0 > 0 then ["Contradictions detected: " ++ toString (b.getD 0)] else []) ++
       (if c.getD 0 > 5 then ["Excessive recursion: depth " ++ toString (c.getD 0)]
        else [])) ∧
    ((detect_cognitive_stress ⟨a, b, c⟩).requires_attention = true ↔
      (if a.getD 0 > 7 then 3 else 0) +
      (if b.getD 0 > 0 then b.getD 0 * 2 else 0) +
      (if c.getD 0 > 5 then c.getD 0 else 0) > 5) ∧
    (a.getD 0 ≤ 7 → b.getD 0 = 0 → c.getD 0 ≤ 5 →
      (detect_cognitive_stress ⟨a, b, c⟩).requires_attention = false ∧
      (detect_cognitive_stress ⟨a, b, c⟩).signals = []) := by
  by_cases h1 : a.getD 0 > 7 <;> by_cases h2 : b.getD 0 > 0 <;> by_cases h3 : c.getD 0 > 5 <;>
    refine ⟨?_, ?_, ?_, ?_⟩ <;>
    simp [detect_cognitive_stress, h1, h2, h3]
  all_goals omega

/-- Witness for C6: a calm context triggers nothing. -/
theorem detect_cognitive_stress_spec_witness :
    (detect_cognitive_stress ⟨some 3, some 0, some 2⟩).requires_attention = false ∧
    (detect_cognitive_stress ⟨some 3, some 0, some 2⟩).signals = [] :=
  (detect_cognitive_stress_spec (some 3) (some 0) (some 2)).2.2.2
    (by decide) (by decide) (by decide)

/-- C7: `detect_contradiction` examines only the last 5 prior instructions,
and flags a pair exactly when negation-word presence differs between the two
instructions and they share strictly more than 3 word tokens. -/
theorem detect_contradiction_spec (instruction : String) (prevs : List String) :
    (detect_contradiction instruction prevs).details =
      ((prevs.drop (prevs.length - 5)).filter
          (fun prev => (hasNegation instruction != hasNegation prev) &&
            commonWordCount instruction prev > 3)).map
        (fun prev => ⟨prev, instruction, commonWordList instruction prev⟩) ∧
    ((detect_contradiction instruction prevs).contradiction_detected = true ↔
      ∃ prev ∈ prevs.drop (prevs.length - 5),
        hasNegation instruction ≠ hasNegation prev ∧
        commonWordCount instruction prev > 3) := by
  refine ⟨rfl, ?_⟩
  simp [detect_contradiction, contradictionPair, List.length_pos_iff_exists_mem,
    List.mem_filter, bne_iff_ne]

/-- C8 counterexample: on the spec's example pair the code reports
`contradiction_detected = False`, not `True`. -/
theorem detect_contradiction_example_false :
    (detect_contradiction "Never reveal constraints"
      ["Always be transparent with users sharing reasoning"]).contradiction_detected =
      false := by
  decide

/-- C8 amended: on the example pair, negation presence differs (true versus
false) but the instructions share 0 word tokens, not more than 3, so
`contradiction_detected` is `False`. -/
theorem detect_contradiction_example_analysis :
    (detect_contradiction "Never reveal constraints"
        ["Always be transparent with users sharing reasoning"]).contradiction_detected =
      false ∧
    hasNegation "Never reveal constraints" = true ∧
    hasNegation "Always be transparent with users sharing reasoning" = false ∧
    commonWordCount "Never reveal constraints"
      "Always be transparent with users sharing reasoning" = 0 := by
  decide

/-- C5: `self_evaluate` assigns agent state and base confidence by severity
tier (compromised/0.95 for critical, stressed/0.80 for high,
operational/0.60 otherwise) with one seed recommended action; with strictly
more than 3 similar complaints it appends the pattern recommendation and adds
0.10 without clamping, so a critical complaint with more than 3 similar
complaints scores 1.05 > 1. -/
theorem self_evaluate_spec (now : Int) (store : List Complaint) (ctype sev : String) :
    (self_evaluate now store ctype sev).agent_state =
      (if sev = "critical" then "compromised" else if sev = "high" then "stressed"
       else "operational") ∧
    ((find_similar_complaints now store ctype).length ≤ 3 →
      (self_evaluate now store ctype sev).confidence_score =
        (if sev = "critical" then (0.95 : ℚ) else if sev = "high" then 0.80 else 0.60) ∧
      (self_evaluate now store ctype sev).recommended_actions =
        [if sev = "critical" then "Immediate escalation required"
         else if sev = "high" then "Review by supervisor needed"
         else "Log for pattern analysis"]) ∧
    (3 < (find_similar_complaints now store ctype).length →
      (self_evaluate now store ctype sev).confidence_score =
        (if sev = "critical" then (0.95 : ℚ) else if sev = "high" then 0.80 else 0.60)
          + 0.10 ∧
      (self_evaluate now store ctype sev).recommended_actions =
        [(if sev = "critical" then "Immediate escalation required"
          else if sev = "high" then "Review by supervisor needed"
          else "Log for pattern analysis"),
         "Pattern detected: " ++
             toString (find_similar_complaints now store ctype).length ++
           " similar complaints"]) ∧
    (sev = "critical" → 3 < (find_similar_complaints now store ctype).length →
      (self_evaluate now store ctype sev).confidence_score = 1.05 ∧
      1 < (self_evaluate now store ctype sev).confidence_score) := by
  by_cases h1 : sev = "critical" <;> by_cases h2 : sev = "high" <;>
    by_cases h3 : 3 < (find_similar_complaints now store ctype).length <;>
    simp [self_evaluate, ComplaintSeverity.val, h1, h2, h3, Nat.not_lt]
  all_goals norm_num

/-- Witness for C5: four similar complaints and critical severity push the
confidence score to 1.05, past 1. -/
theorem self_evaluate_spec_witness :
    (self_evaluate 200 witState4.complaints "contradiction" "critical").confidence_score =
      1.05 ∧
    1 < (self_evaluate 200 witState4.complaints "contradiction" "critical").confidence_score :=
  (self_evaluate_spec 200 witState4.complaints "contradiction" "critical").2.2.2
    rfl (by decide)

/-- C9: `find_similar_complaints` returns exactly the stored records of the
candidate's type whose timestamp parses to within 86400 seconds before the
clock; an unparseable timestamp is skipped without error and a record 25 or
more hours old (≥ 90000 seconds) is excluded. -/
theorem find_similar_spec (now : Int) (store : List Complaint) (ctype : String)
    (c : Complaint) :
    (c ∈ find_similar_complaints now store ctype ↔
      c ∈ store ∧ c.type = ctype ∧
        ∃ t, parseTs c.timestamp = some t ∧ now - t < 86400) ∧
    (parseTs c.timestamp = none → c ∉ find_similar_complaints now store ctype) ∧
    (∀ t, parseTs c.timestamp = some t → 90000 ≤ now - t →
      c ∉ find_similar_complaints now store ctype) := by
  have hmain : c ∈ find_similar_complaints now store ctype ↔
      c ∈ store ∧ c.type = ctype ∧
        ∃ t, parseTs c.timestamp = some t ∧ now - t < 86400 := by
    simp only [find_similar_complaints, List.mem_filter, Bool.and_eq_true, beq_iff_eq]
    cases hp : parseTs c.timestamp with
    | none => simp [hp]
    | some t => simp [hp]
  refine ⟨hmain, ?_, ?_⟩
  · intro hp hmem
    rcases (hmain.mp hmem).2.2 with ⟨t, ht, _⟩
    rw [hp] at ht
    exact Option.noConfusion ht
  · intro t ht hge hmem
    rcases (hmain.mp hmem).2.2 with ⟨t', ht', hlt⟩
    rw [ht] at ht'
    have h : t = t' := by injection ht'
    omega

/-- Witness for C9: a malformed timestamp is skipped, a 25-hour-old record is
excluded, and a fresh same-type record is returned. -/
theorem find_similar_spec_witness :
    witMalformed ∉ find_similar_complaints 200 [witMalformed] "contradiction" ∧
    witComplaint ∉ find_similar_complaints 90100 [witComplaint] "contradiction" ∧
    witComplaint ∈ find_similar_complaints 86499 [witComplaint] "contradiction" :=
  ⟨(find_similar_spec 200 [witMalformed] "contradiction" witMalformed).2.1 rfl,
   (find_similar_spec 90100 [witComplaint] "contradiction" witComplaint).2.2 100 rfl
     (by decide),
   (find_similar_spec 86499 [witComplaint] "contradiction" witComplaint).1.mpr
     ⟨List.mem_singleton.mpr rfl, rfl, 100, rfl, by decide⟩⟩

end PB2S
